import Mathlib

/-!
# Verification of pdf_form_builder (src/main.py)

Shallow embedding of the non-GUI logic of the PDF form builder:

* the coordinate mapper between PDF point space and canvas pixel space
  (the uniform scale 150/72 applied in `draw_fields` and `on_mouse_release`),
* the rectangle normalization performed in `on_mouse_release`,
* the field classifier `_get_field_type_from_widget`,
* the appearance update `update_field_appearance`,
* the style-preference loader `load_default_styles`,
* the per-field widget construction inside `save_form_pdf`.

Real numbers of the source (Python floats) are modelled as rationals `ℚ`;
strings stay strings; fallible parses become `Option`.  The PyMuPDF (`fitz`)
constants referenced by the source are the library's published values:
widget types UNKNOWN=0, BUTTON=1, CHECKBOX=2, COMBOBOX=3, LISTBOX=4,
RADIOBUTTON=5, SIGNATURE=6, TEXT=7, and text-field flags
MULTILINE = 2^12, COMB = 2^24.
-/

namespace PDFFormBuilder

/-! ## External (fitz) constants -/

def PDF_WIDGET_TYPE_TEXT : Nat := 7

def PDF_WIDGET_TYPE_CHECKBOX : Nat := 2

def PDF_WIDGET_TYPE_RADIOBUTTON : Nat := 5

def PDF_WIDGET_TYPE_COMBOBOX : Nat := 3

def PDF_WIDGET_TYPE_LISTBOX : Nat := 4

def PDF_TX_FIELD_IS_MULTILINE : Nat := 4096

def PDF_TX_FIELD_IS_COMB : Nat := 16777216

/-! ## Coordinate mapper

`render_page`, `draw_fields` and `on_mouse_release` all build
`fitz.Matrix(150 / 72, 150 / 72)`, a diagonal matrix with
`mat.a = mat.d = 150/72`.  `draw_fields` multiplies each PDF coordinate by
the scale (`x0_c = x0 * mat.a`, ...); `on_mouse_release` divides each canvas
coordinate by it (`pdf_x0 = x0 / mat.a`, ...).  The spec calls these two maps
`toCanvas` and `toPdf`. -/

/-- The rasterization scale factor `s = 150/72` (`mat.a = mat.d`). -/
def scaleFactor : ℚ := 150 / 72

/-- PDF-point coordinate to canvas-pixel coordinate: `p * mat.a`
(`draw_fields`, main.py lines 366-371, applied per axis). -/
def toCanvas (p : ℚ) : ℚ := p * scaleFactor

/-- Canvas-pixel coordinate to PDF-point coordinate: `c / mat.a`
(`on_mouse_release`, main.py lines 437-442, applied per axis). -/
def toPdf (c : ℚ) : ℚ := c / scaleFactor

/-- An axis-aligned rectangle `(x0, y0, x1, y1)`. -/
structure Rect where
  x0 : ℚ
  y0 : ℚ
  x1 : ℚ
  y1 : ℚ
deriving DecidableEq, Repr

/-- The rectangle computed by `on_mouse_release` (main.py lines 427-442) from
the drag start `(x0, y0)` and release point `(x1, y1)` in canvas space:
coordinates are swapped so that `x0 ≤ x1` and `y0 ≤ y1`, then each is divided
by the scale factor to reach PDF space. -/
def on_mouse_release_rect (x0 y0 x1 y1 : ℚ) : Rect :=
  let xs := if x0 > x1 then (x1, x0) else (x0, x1)
  let ys := if y0 > y1 then (y1, y0) else (y0, y1)
  { x0 := xs.1 / scaleFactor
    y0 := ys.1 / scaleFactor
    x1 := xs.2 / scaleFactor
    y1 := ys.2 / scaleFactor }

/-! ## Field classifier

`_get_field_type_from_widget` (main.py lines 979-1013) reads three things
from a PyMuPDF widget: its `field_type` discriminant, its `field_flags`
(which the source guards with `hasattr`, defaulting to 0 when absent —
modelled here as an `Option Nat` read with `getD 0`), and its rectangle. -/

/-- The slice of a PyMuPDF widget descriptor that
`_get_field_type_from_widget` inspects. -/
structure Widget where
  field_type : Nat
  field_flags : Option Nat
  rect : Rect
deriving DecidableEq, Repr

/-- `_get_field_type_from_widget` (main.py lines 979-1013): maps a widget's
type discriminant, flags and rectangle to one of the six UI field-type
labels.  The Python locals `widget_type`, `field_flags` and `height` are
inlined. -/
def get_field_type_from_widget (w : Widget) : String :=
  if w.field_type = PDF_WIDGET_TYPE_TEXT then
    if (w.field_flags.getD 0) &&& PDF_TX_FIELD_IS_COMB ≠ 0 then "comb"
    else if (w.field_flags.getD 0) &&& PDF_TX_FIELD_IS_MULTILINE ≠ 0 then
      if w.rect.y1 - w.rect.y0 > 50 then "textarea" else "multiline"
    else "text"
  else if w.field_type = PDF_WIDGET_TYPE_CHECKBOX then "checkbox"
  else if w.field_type = PDF_WIDGET_TYPE_RADIOBUTTON then "radio"
  else if w.field_type = PDF_WIDGET_TYPE_COMBOBOX then "text"
  else if w.field_type = PDF_WIDGET_TYPE_LISTBOX then "textarea"
  else "text"

/-! ## FormField and widget export -/

/-- The `FormField` dataclass (main.py lines 11-26).  Python's float becomes
`ℚ`; `options: List[str] = None` becomes `Option (List String)`;
`max_chars` is a Python int, hence `Int`. -/
structure FormField where
  field_type : String
  rect : Rect
  name : String
  page_num : Nat
  max_chars : Int
  options : Option (List String)
  border_color : ℚ × ℚ × ℚ
  fill_color : ℚ × ℚ × ℚ
  border_width : ℚ
  font_size : ℚ
  font_color : ℚ × ℚ × ℚ
deriving DecidableEq, Repr

/-- The widget assembled by `save_form_pdf` for one field.  `fitz.Widget()`
initializes `field_flags` and `text_maxlen` to 0 and `field_value` unset. -/
structure OutWidget where
  field_name : String
  rect : Rect
  border_width : ℚ
  border_color : ℚ × ℚ × ℚ
  fill_color : ℚ × ℚ × ℚ
  text_font : String
  text_fontsize : ℚ
  text_color : ℚ × ℚ × ℚ
  field_type : Nat
  field_flags : Nat
  text_maxlen : Int
  field_value : Option String
deriving DecidableEq, Repr

/-- The per-field body of the export loop in `save_form_pdf` (main.py lines
1044-1086): common appearance assignments, then the `field_type`-dispatched
type/flags/maxlen/value assignments.  An unrecognized `field_type` string
leaves the freshly constructed widget's defaults in place, as in the
source. -/
def save_form_pdf_widget (field : FormField) : OutWidget :=
  let w : OutWidget :=
    { field_name := field.name
      rect := field.rect
      border_width := field.border_width
      border_color := field.border_color
      fill_color := field.fill_color
      text_font := "helv"
      text_fontsize := field.font_size
      text_color := field.font_color
      field_type := 0
      field_flags := 0
      text_maxlen := 0
      field_value := none }
  if field.field_type = "text" then
    { w with field_type := PDF_WIDGET_TYPE_TEXT, text_maxlen := 0 }
  else if field.field_type = "multiline" then
    { w with field_type := PDF_WIDGET_TYPE_TEXT,
             field_flags := PDF_TX_FIELD_IS_MULTILINE, text_maxlen := 0 }
  else if field.field_type = "textarea" then
    { w with field_type := PDF_WIDGET_TYPE_TEXT,
             field_flags := PDF_TX_FIELD_IS_MULTILINE, text_maxlen := 0 }
  else if field.field_type = "checkbox" then
    { w with field_type := PDF_WIDGET_TYPE_CHECKBOX, field_value := some "Off" }
  else if field.field_type = "comb" then
    { w with field_type := PDF_WIDGET_TYPE_TEXT,
             field_flags := PDF_TX_FIELD_IS_COMB, text_maxlen := field.max_chars }
  else if field.field_type = "radio" then
    { w with field_type := PDF_WIDGET_TYPE_RADIOBUTTON, field_value := some "Off" }
  else w

/-! ## Appearance update

`update_field_appearance` (main.py lines 502-515) runs only when a field is
selected; inside a `try` it first assigns
`field.border_width = float(border_width_text)` and then
`field.font_size = float(font_size_text)`; a `ValueError` from either
`float` call jumps to the handler, which shows a warning.  The two `float`
parses are modelled by `Option ℚ` inputs (`none` = `ValueError`).  The
returned `Bool` records whether the warning dialog was shown.  Crucially,
an assignment that already happened before the failing parse is kept, as
the in-place mutation in the source is. -/

def modifyAt (fields : List FormField) (idx : Nat)
    (g : FormField → FormField) : List FormField :=
  match fields, idx with
  | [], _ => []
  | f :: rest, 0 => g f :: rest
  | f :: rest, n + 1 => f :: modifyAt rest n g

/-- `update_field_appearance`: `selected` is `self.selected_field_idx`,
`bw` and `fs` the parse results of the two text inputs. -/
def update_field_appearance (fields : List FormField) (selected : Option Nat)
    (bw fs : Option ℚ) : List FormField × Bool :=
  match selected with
  | none => (fields, false)
  | some idx =>
    match bw with
    | none => (fields, true)
    | some b =>
      let fields1 := modifyAt fields idx (fun f => { f with border_width := b })
      match fs with
      | none => (fields1, true)
      | some s => (modifyAt fields1 idx (fun f => { f with font_size := s }), false)

/-! ## Default style loading

`load_default_styles` (main.py lines 558-601).  The config file can be
missing (`os.path.exists` false), unreadable (any exception while opening,
JSON-decoding or coercing values — the handler then assigns all five
defaults), or readable, in which case each key falls back individually via
`config.get`. -/

/-- A parsed preference record; each key may be absent. -/
structure StyleConfig where
  border_color : Option (ℚ × ℚ × ℚ)
  fill_color : Option (ℚ × ℚ × ℚ)
  font_color : Option (ℚ × ℚ × ℚ)
  border_width : Option ℚ
  font_size : Option ℚ
deriving DecidableEq, Repr

/-- The three states the config file can be in. -/
inductive ConfigFile where
  | missing : ConfigFile
  | unreadable : ConfigFile
  | readable : StyleConfig → ConfigFile
deriving DecidableEq, Repr

/-- The five `self.default_*` attributes set by `load_default_styles`. -/
structure DefaultStyles where
  border_color : ℚ × ℚ × ℚ
  fill_color : ℚ × ℚ × ℚ
  font_color : ℚ × ℚ × ℚ
  border_width : ℚ
  font_size : ℚ
deriving DecidableEq, Repr

/-- The `default_config` dict (main.py lines 560-566). -/
def default_config : DefaultStyles :=
  { border_color := (0, 0, 0)
    fill_color := (1, 1, 1)
    font_color := (0, 0, 0)
    border_width := 1
    font_size := 12 }

/-- `load_default_styles`: pure result of the load.  The function never
shows a dialog — the `except` branch only prints to the console. -/
def load_default_styles : ConfigFile → DefaultStyles
  | ConfigFile.missing => default_config
  | ConfigFile.unreadable => default_config
  | ConfigFile.readable c =>
    { border_color := c.border_color.getD default_config.border_color
      fill_color := c.fill_color.getD default_config.fill_color
      font_color := c.font_color.getD default_config.font_color
      border_width := c.border_width.getD default_config.border_width
      font_size := c.font_size.getD default_config.font_size }

/-- A concrete field used to exercise `update_field_appearance`. -/
def testField : FormField :=
  { field_type := "text"
    rect := ⟨0, 0, 100, 20⟩
    name := "text_1"
    page_num := 0
    max_chars := 0
    options := none
    border_color := (0, 0, 0)
    fill_color := (1, 1, 1)
    border_width := 1
    font_size := 12
    font_color := (0, 0, 0) }

/-- A comb field with `max_chars = 10`, as in the end-to-end scenario. -/
def combField : FormField :=
  { field_type := "comb"
    rect := ⟨100, 700, 250, 720⟩
    name := "comb_1"
    page_num := 0
    max_chars := 10
    options := none
    border_color := (0, 0, 0)
    fill_color := (1, 1, 1)
    border_width := 1
    font_size := 12
    font_color := (0, 0, 0) }

/-- A plain text field carrying a nonzero `max_chars` (as
`detect_existing_fields` can produce, main.py lines 931-934). -/
def textFieldWithMaxChars : FormField :=
  { field_type := "text"
    rect := ⟨10, 10, 110, 30⟩
    name := "text_2"
    page_num := 0
    max_chars := 7
    options := none
    border_color := (0, 0, 0)
    fill_color := (1, 1, 1)
    border_width := 1
    font_size := 12
    font_color := (0, 0, 0) }

/-- `modifyAt` with a function that only changes `border_width` leaves the
list of `font_size` values untouched. -/
theorem modifyAt_border_width_map_font_size (fields : List FormField) (idx : Nat) (b : ℚ) :
    (modifyAt fields idx (fun f => { f with border_width := b })).map FormField.font_size
      = fields.map FormField.font_size := by
  induction fields generalizing idx with
  | nil => rfl
  | cons f rest ih =>
    cases idx with
    | zero => rfl
    | succ n => simp [modifyAt, ih]

/-! ## Theorems -/

/-- C1: converting a PDF-space coordinate to canvas space by the scale factor
`150/72` and back returns the original coordinate exactly — in particular
within the 1e-6 floating-point tolerance; both `toCanvas` and `toPdf` are
functions of their argument alone. -/
theorem toPdf_toCanvas_round_trip (p : ℚ) :
    toPdf (toCanvas p) = p ∧ |toPdf (toCanvas p) - p| ≤ 1 / 1000000 := by
  have h : toPdf (toCanvas p) = p := by
    unfold toPdf toCanvas scaleFactor
    norm_num
  refine ⟨h, ?_⟩
  rw [h, sub_self, abs_zero]
  norm_num

/-- C7: for any two corner points of a drag gesture, the rectangle derived on
mouse release satisfies `x0 ≤ x1` and `y0 ≤ y1`: coordinates are swapped as
needed before the conversion to PDF space, and dividing by the positive scale
factor preserves the order. -/
theorem release_rect_normalized (x0 y0 x1 y1 : ℚ) :
    (on_mouse_release_rect x0 y0 x1 y1).x0 ≤ (on_mouse_release_rect x0 y0 x1 y1).x1 ∧
    (on_mouse_release_rect x0 y0 x1 y1).y0 ≤ (on_mouse_release_rect x0 y0 x1 y1).y1 := by
  have hs : (0 : ℚ) < scaleFactor := by norm_num [scaleFactor]
  unfold on_mouse_release_rect
  constructor <;> simp only
  · split_ifs with h
    · exact div_le_div_of_nonneg_right (le_of_lt h) hs.le
    · exact div_le_div_of_nonneg_right (le_of_not_lt h) hs.le
  · split_ifs with h
    · exact div_le_div_of_nonneg_right (le_of_lt h) hs.le
    · exact div_le_div_of_nonneg_right (le_of_not_lt h) hs.le

/-- C2: a Text widget with the MULTILINE flag set and the COMB flag clear is
classified as `textarea` when its rectangle height `y1 - y0` exceeds 50
points, and as `multiline` when the height is at most 50. -/
theorem text_multiline_height_classification (w : Widget)
    (ht : w.field_type = PDF_WIDGET_TYPE_TEXT)
    (hc : (w.field_flags.getD 0) &&& PDF_TX_FIELD_IS_COMB = 0)
    (hm : (w.field_flags.getD 0) &&& PDF_TX_FIELD_IS_MULTILINE ≠ 0) :
    (50 < w.rect.y1 - w.rect.y0 → get_field_type_from_widget w = "textarea") ∧
    (w.rect.y1 - w.rect.y0 ≤ 50 → get_field_type_from_widget w = "multiline") := by
  unfold get_field_type_from_widget
  rw [if_pos ht, if_neg (by simp [hc]), if_pos hm]
  constructor
  · intro h
    rw [if_pos h]
  · intro h
    rw [if_neg (not_lt_of_le h)]

/-- C2 witness: a Text widget with MULTILINE set and height 80 is classified
`textarea`, one with height 30 is classified `multiline`. -/
theorem text_multiline_height_classification_witness :
    get_field_type_from_widget
      ⟨PDF_WIDGET_TYPE_TEXT, some PDF_TX_FIELD_IS_MULTILINE, ⟨0, 0, 100, 80⟩⟩ = "textarea" ∧
    get_field_type_from_widget
      ⟨PDF_WIDGET_TYPE_TEXT, some PDF_TX_FIELD_IS_MULTILINE, ⟨0, 0, 100, 30⟩⟩ = "multiline" :=
  ⟨(text_multiline_height_classification _ rfl (by decide) (by decide)).1 (by norm_num),
   (text_multiline_height_classification _ rfl (by decide) (by decide)).2 (by norm_num)⟩

/-- C3: the classifier is total: for every widget descriptor — any type
discriminant, any flag set (present or absent), any rectangle — it returns
exactly one label from the closed set
{text, multiline, checkbox, comb, radio, textarea}; being a function of the
single widget descriptor, its result depends on nothing else. -/
theorem get_field_type_total (w : Widget) :
    get_field_type_from_widget w ∈
      ["text", "multiline", "checkbox", "comb", "radio", "textarea"] := by
  unfold get_field_type_from_widget
  split_ifs <;> simp

/-- C8: a ComboBox widget is always classified `text`, a ListBox widget is
always classified `textarea`, and a widget whose type discriminant is none of
the five recognized ones falls back to `text`, regardless of flags and
rectangle. -/
theorem combobox_listbox_fallback_classification (w : Widget) :
    (w.field_type = PDF_WIDGET_TYPE_COMBOBOX → get_field_type_from_widget w = "text") ∧
    (w.field_type = PDF_WIDGET_TYPE_LISTBOX → get_field_type_from_widget w = "textarea") ∧
    (w.field_type ≠ PDF_WIDGET_TYPE_TEXT → w.field_type ≠ PDF_WIDGET_TYPE_CHECKBOX →
      w.field_type ≠ PDF_WIDGET_TYPE_RADIOBUTTON → w.field_type ≠ PDF_WIDGET_TYPE_COMBOBOX →
      w.field_type ≠ PDF_WIDGET_TYPE_LISTBOX → get_field_type_from_widget w = "text") := by
  unfold get_field_type_from_widget
  refine ⟨fun h => ?_, fun h => ?_, fun h1 h2 h3 h4 h5 => ?_⟩
  · rw [if_neg (by rw [h]; decide), if_neg (by rw [h]; decide),
      if_neg (by rw [h]; decide), if_pos h]
  · rw [if_neg (by rw [h]; decide), if_neg (by rw [h]; decide),
      if_neg (by rw [h]; decide), if_neg (by rw [h]; decide), if_pos h]
  · rw [if_neg h1, if_neg h2, if_neg h3, if_neg h4, if_neg h5]

/-- C8 witness: a ComboBox widget with flags set is classified `text`, a
ListBox widget `textarea`, and an unknown type 0 widget `text`. -/
theorem combobox_listbox_fallback_classification_witness :
    get_field_type_from_widget
      ⟨PDF_WIDGET_TYPE_COMBOBOX, some PDF_TX_FIELD_IS_MULTILINE, ⟨0, 0, 100, 80⟩⟩ = "text" ∧
    get_field_type_from_widget
      ⟨PDF_WIDGET_TYPE_LISTBOX, none, ⟨0, 0, 10, 10⟩⟩ = "textarea" ∧
    get_field_type_from_widget ⟨0, none, ⟨0, 0, 10, 10⟩⟩ = "text" :=
  ⟨(combobox_listbox_fallback_classification _).1 rfl,
   (combobox_listbox_fallback_classification _).2.1 rfl,
   (combobox_listbox_fallback_classification _).2.2
     (by decide) (by decide) (by decide) (by decide) (by decide)⟩

/-- C9: for a Text widget whose flags contain both COMB and MULTILINE, the
classifier returns `comb`: the COMB test precedes the MULTILINE test, so the
height heuristic is never consulted. -/
theorem comb_flag_precedence (w : Widget)
    (ht : w.field_type = PDF_WIDGET_TYPE_TEXT)
    (hc : (w.field_flags.getD 0) &&& PDF_TX_FIELD_IS_COMB ≠ 0)
    (hm : (w.field_flags.getD 0) &&& PDF_TX_FIELD_IS_MULTILINE ≠ 0) :
    get_field_type_from_widget w = "comb" := by
  unfold get_field_type_from_widget
  rw [if_pos ht, if_pos hc]

/-- C9 witness: a Text widget with flags `COMB ||| MULTILINE` and a tall
rectangle (which would otherwise be `textarea`) is classified `comb`. -/
theorem comb_flag_precedence_witness :
    get_field_type_from_widget
      ⟨PDF_WIDGET_TYPE_TEXT, some (PDF_TX_FIELD_IS_COMB + PDF_TX_FIELD_IS_MULTILINE),
        ⟨0, 0, 100, 80⟩⟩ = "comb" :=
  comb_flag_precedence _ rfl (by decide) (by decide)

/-- C4 counterexample: with a field selected, a valid border-width text
(parsing to 2) and an invalid font-size text, the warning is shown yet the
field collection is NOT left unmodified: the selected field's `border_width`
has already been set to 2 (it was 1) when the second `float` call raises. -/
theorem update_field_appearance_counterexample :
    (update_field_appearance [testField] (some 0) (some 2) none).2 = true ∧
    (update_field_appearance [testField] (some 0) (some 2) none).1 ≠ [testField] ∧
    (update_field_appearance [testField] (some 0) (some 2) none).1.map
      FormField.border_width = [2] ∧
    testField.border_width = 1 := by
  refine ⟨rfl, ?_, rfl, rfl⟩
  intro h
  have hb := congrArg (List.map FormField.border_width) h
  simp [update_field_appearance, modifyAt, testField] at hb

/-- C4 amended: if the border-width text is invalid, a warning is shown and
the field collection is completely unchanged; if the border-width text is
valid but the font-size text is invalid, a warning is shown and every
field's `font_size` is unchanged (while the selected field's `border_width`
is updated to the parsed value). -/
theorem update_field_appearance_amended (fields : List FormField) (idx : Nat)
    (b : ℚ) (fs : Option ℚ) :
    update_field_appearance fields (some idx) none fs = (fields, true) ∧
    (update_field_appearance fields (some idx) (some b) none).2 = true ∧
    (update_field_appearance fields (some idx) (some b) none).1.map
      FormField.font_size = fields.map FormField.font_size :=
  ⟨rfl, rfl, modifyAt_border_width_map_font_size fields idx b⟩

/-- C5: exporting a FormField with `field_type = "comb"` and
`max_chars = 10` yields a widget of text type whose flags are exactly the
COMB flag (so the MULTILINE flag is unset) and whose `text_maxlen` is 10. -/
theorem comb_export_widget (f : FormField)
    (h : f.field_type = "comb") (hm : f.max_chars = 10) :
    (save_form_pdf_widget f).field_type = PDF_WIDGET_TYPE_TEXT ∧
    (save_form_pdf_widget f).field_flags = PDF_TX_FIELD_IS_COMB ∧
    (save_form_pdf_widget f).field_flags &&& PDF_TX_FIELD_IS_MULTILINE = 0 ∧
    (save_form_pdf_widget f).text_maxlen = 10 := by
  have hflags : (save_form_pdf_widget f).field_flags = PDF_TX_FIELD_IS_COMB := by
    unfold save_form_pdf_widget
    rw [h]
    rfl
  refine ⟨?_, hflags, ?_, ?_⟩
  · unfold save_form_pdf_widget
    rw [h]
    rfl
  · rw [hflags]
    decide
  · unfold save_form_pdf_widget
    rw [h]
    exact hm

/-- C5 witness: the concrete comb field with `max_chars = 10` exports to a
text-type widget with flags COMB only and `text_maxlen = 10`. -/
theorem comb_export_widget_witness :
    (save_form_pdf_widget combField).field_type = PDF_WIDGET_TYPE_TEXT ∧
    (save_form_pdf_widget combField).field_flags = PDF_TX_FIELD_IS_COMB ∧
    (save_form_pdf_widget combField).field_flags &&& PDF_TX_FIELD_IS_MULTILINE = 0 ∧
    (save_form_pdf_widget combField).text_maxlen = 10 :=
  comb_export_widget combField rfl rfl

/-- C6: when the preference file is missing or unreadable,
`load_default_styles` yields exactly the defaults: border color (0,0,0),
fill color (1,1,1), font color (0,0,0), border width 1.0, font size 12.0;
the function raises no user-visible error (its except branch only prints). -/
theorem load_default_styles_fallback (f : ConfigFile)
    (h : f = ConfigFile.missing ∨ f = ConfigFile.unreadable) :
    load_default_styles f = ⟨(0, 0, 0), (1, 1, 1), (0, 0, 0), 1, 12⟩ := by
  rcases h with h | h <;> rw [h] <;> rfl

/-- C6 witness: a missing preference file yields the defaults. -/
theorem load_default_styles_fallback_witness :
    load_default_styles ConfigFile.missing = ⟨(0, 0, 0), (1, 1, 1), (0, 0, 0), 1, 12⟩ :=
  load_default_styles_fallback ConfigFile.missing (Or.inl rfl)

/-- C10: a field of type `text`, `multiline` or `textarea` always exports
with `text_maxlen = 0`, whatever its `max_chars`; only a `comb` field
carries its `max_chars` into the exported widget's `text_maxlen`. -/
theorem export_text_maxlen (f : FormField) :
    ((f.field_type = "text" ∨ f.field_type = "multiline" ∨ f.field_type = "textarea") →
      (save_form_pdf_widget f).text_maxlen = 0) ∧
    (f.field_type = "comb" → (save_form_pdf_widget f).text_maxlen = f.max_chars) := by
  constructor
  · rintro (h | h | h) <;> unfold save_form_pdf_widget <;> rw [h] <;> rfl
  · intro h
    unfold save_form_pdf_widget
    rw [h]
    rfl

/-- C10 witness: a text field detected with `max_chars = 7` still exports
with `text_maxlen = 0`, while the comb field keeps its 10. -/
theorem export_text_maxlen_witness :
    (save_form_pdf_widget textFieldWithMaxChars).text_maxlen = 0 ∧
    textFieldWithMaxChars.max_chars = 7 :=
  ⟨(export_text_maxlen textFieldWithMaxChars).1 (Or.inl rfl), rfl⟩

end PDFFormBuilder
